import Mathlib

/-!
Shallow embedding of `web-src/app.js`, a browser-side example loader.

The script:
  1. resolves a selector from the URL hash fragment (`substr(1) || "cells"`),
  2. dynamically imports `./wasm/examples/<selector>.js`, calling the loaded
     module's default export in a `.then` handler, with a `.catch` that shows
     `window.alert(err)`,
  3. synchronously looks up `a[href="#<selector>"]` and adds the class
     `active` (a null dereference if no such anchor exists),
  4. fetches `./sources/<selector>.rs`, writes the body text into the
     `#code` element and calls `highlightAll()` — with no `.catch` attached,
  5. installs a hash-change handler that unconditionally reloads the page.

Promise chains are embedded as an explicit `Promise` state plus an event log
(alerts shown, default-export calls, DOM writes); the synchronous top-level
statements are embedded as `runScript`, which records which statements
executed before/after the possible null-dereference throw.
-/

/-- The fragment of a URL hash string: everything after the leading `#`
(JavaScript `hash.substr(1)`; the empty string when the hash is absent). -/
def fragmentOf (hash : String) : String :=
  hash.drop 1

/-- `example = window.location.hash.substr(1) || "cells"`: the fragment when
non-empty (JavaScript `||` treats `""` as falsy), else `"cells"`. -/
def resolveSelector (frag : String) : String :=
  if frag = "" then "cells" else frag

/-- The selector computed from the raw hash string. -/
def exampleOf (hash : String) : String :=
  resolveSelector (fragmentOf hash)

/-- Path handed to the dynamic import: `./wasm/examples/${example}.js`. -/
def modulePath (sel : String) : String :=
  "./wasm/examples/" ++ sel ++ ".js"

/-- Path handed to fetch: `./sources/${example}.rs`. -/
def sourcePath (sel : String) : String :=
  "./sources/" ++ sel ++ ".rs"

/-- C1: with an empty or absent URL fragment the selector defaults to
`"cells"`, the module path is `./wasm/examples/cells.js` and the source path
is `./sources/cells.rs`. -/
theorem default_selector_paths :
    resolveSelector "" = "cells" ∧
    exampleOf "" = "cells" ∧
    exampleOf "#" = "cells" ∧
    modulePath (resolveSelector "") = "./wasm/examples/cells.js" ∧
    sourcePath (resolveSelector "") = "./sources/cells.rs" :=
  ⟨rfl, rfl, rfl, rfl, rfl⟩

/-- C2: any non-empty fragment is passed through unchanged — no encoding,
no validation — into both resource paths. -/
theorem selector_passthrough (s : String) (h : s ≠ "") :
    resolveSelector s = s ∧
    modulePath (resolveSelector s) = "./wasm/examples/" ++ s ++ ".js" ∧
    sourcePath (resolveSelector s) = "./sources/" ++ s ++ ".rs" := by
  have hs : resolveSelector s = s := by simp [resolveSelector, h]
  exact ⟨hs, by rw [hs]; rfl, by rw [hs]; rfl⟩

/-- Witness for C2 at the concrete fragment `"foo"`. -/
theorem selector_passthrough_witness :
    resolveSelector "foo" = "foo" ∧
    modulePath (resolveSelector "foo") = "./wasm/examples/" ++ "foo" ++ ".js" ∧
    sourcePath (resolveSelector "foo") = "./sources/" ++ "foo" ++ ".rs" :=
  selector_passthrough "foo" (by decide)

/-- C9: selector resolution is a total function returning a non-empty string:
the fragment itself when non-empty, the fixed default `"cells"` otherwise. -/
theorem resolve_selector_total (s : String) :
    resolveSelector s ≠ "" ∧
    (s ≠ "" → resolveSelector s = s) ∧
    (s = "" → resolveSelector s = "cells") := by
  by_cases h : s = ""
  · subst h
    exact ⟨by decide, fun hne => absurd rfl hne, fun _ => rfl⟩
  · refine ⟨?_, fun _ => by simp [resolveSelector, h], fun he => absurd he h⟩
    simp [resolveSelector, h]

/-- Witness for C9 at the fragments `"foo"` and `""`. -/
theorem resolve_selector_total_witness :
    resolveSelector "foo" ≠ "" ∧
    resolveSelector "foo" = "foo" ∧
    resolveSelector "" = "cells" :=
  ⟨(resolve_selector_total "foo").1,
   (resolve_selector_total "foo").2.1 (by decide),
   (resolve_selector_total "").2.2 rfl⟩

/-- A settled JavaScript promise: fulfilled with a value, or rejected with an
error (errors are carried by their string form, which is what `alert` and the
error message ultimately display). -/
inductive Promise (α : Type) where
  | resolved (a : α)
  | rejected (e : String)
deriving DecidableEq, Repr

/-- Whether a promise ended rejected (an unhandled rejection when no `.catch`
is attached downstream). -/
def Promise.isRejected {α : Type} : Promise α → Bool
  | .resolved _ => false
  | .rejected _ => true

/-- Observable side effects performed by the script's promise handlers. -/
inductive Event where
  | alert (msg : String)
  | callDefault
  | setCode (text : String)
  | highlight
deriving DecidableEq, Repr

/-- A promise chain stage: the events emitted so far plus the promise state. -/
abbrev Eff (α : Type) := List Event × Promise α

/-- `.then(f)`: when the promise is fulfilled, run the handler (which may emit
events and either return normally or throw, rejecting the derived promise);
when the promise is rejected, the handler is skipped and the rejection
propagates down the chain. -/
def thenRun {α β : Type} (p : Eff α) (f : α → List Event × Except String β) :
    Eff β :=
  match p with
  | (evs, .rejected e) => (evs, .rejected e)
  | (evs, .resolved a) =>
    match f a with
    | (evs2, .ok b) => (evs ++ evs2, .resolved b)
    | (evs2, .error e) => (evs ++ evs2, .rejected e)

/-- `.catch(h)`: when the promise is rejected, run the handler on the error
(emitting its events) and recover; a fulfilled promise passes through. -/
def catchRun {α : Type} (p : Eff α) (h : String → List Event × α) : Eff α :=
  match p with
  | (evs, .resolved a) => (evs, .resolved a)
  | (evs, .rejected e) =>
    match h e with
    | (evs2, a) => (evs ++ evs2, .resolved a)

/-- The alert messages among a list of emitted events. -/
def alertsOf (evs : List Event) : List String :=
  evs.filterMap fun ev =>
    match ev with
    | .alert m => some m
    | _ => none

/-- How many times the module's default export was invoked. -/
def defaultCallsOf (evs : List Event) : Nat :=
  evs.countP fun ev =>
    match ev with
    | .callDefault => true
    | _ => false

/-- Behaviour of a loaded module's default export when called: return
normally, throw synchronously (the throw lands in the promise chain the
`.then` handler runs in), or return a promise that later rejects. -/
inductive DefaultBehavior where
  | ok
  | throws (e : String)
  | rejectsLater (e : String)
deriving DecidableEq, Repr

/-- The `.then` handler of the module pipeline: `(module) => {
module.default() }`. The call itself is one `callDefault` event; a
synchronous throw turns into a rejection of the derived promise; a returned
(possibly later-rejecting) promise is not awaited, so the handler returns
normally and the returned promise is dropped. -/
def onModuleLoaded (d : DefaultBehavior) : List Event × Except String Unit :=
  match d with
  | .ok => ([Event.callDefault], Except.ok ())
  | .throws e => ([Event.callDefault], Except.error e)
  | .rejectsLater _ => ([Event.callDefault], Except.ok ())

/-- The whole module pipeline:
`import(path).then((module) => { module.default() }).catch(err => {
window.alert(err) })`, applied to the settled import promise. -/
def modulePipeline (imp : Promise DefaultBehavior) : Eff Unit :=
  catchRun (thenRun (([] : List Event), imp) onModuleLoaded)
    (fun e => ([Event.alert e], ()))

/-- Modelled from the spec and the claim's words, for comparison with the
embedded pipeline: the module pipeline fails with error `E` when the import
rejects with `E` or the default-export call throws `E` into the same chain;
it does not fail when both succeed (a later rejection of the returned promise
is not part of the chain). -/
def specModuleFailure : Promise DefaultBehavior → Option String
  | .rejected e => some e
  | .resolved (.throws e) => some e
  | .resolved .ok => none
  | .resolved (.rejectsLater _) => none

/-- The response body read `res.text()`: yields the text or fails. -/
inductive Body where
  | ok (text : String)
  | fails (e : String)
deriving DecidableEq, Repr

/-- The source-display pipeline:
`fetch(path).then(res => res.text()).then(text => { #code.textContent = text;
highlightAll() })`, applied to the settled fetch promise. No `.catch` is
attached, so a rejection anywhere survives to the end of the chain. -/
def sourcePipeline (resp : Promise Body) : Eff Unit :=
  thenRun
    (thenRun (([] : List Event), resp) fun b =>
      match b with
      | .ok t => ([], Except.ok t)
      | .fails e => ([], Except.error e))
    (fun t => ([Event.setCode t, Event.highlight], Except.ok ()))

/-- The DOM state the script writes to: the text content of the `#code`
element (the anchors' class lists are tracked separately by `runScript`). -/
structure Dom where
  codeText : String
deriving DecidableEq, Repr

/-- Replay one emitted event against the DOM: `setCode` overwrites the
`#code` element's text content; the other events do not touch it. -/
def applyEvent (dom : Dom) : Event → Dom
  | .setCode t => { dom with codeText := t }
  | _ => dom

/-- Replay a list of emitted events against the DOM, in order. -/
def applyEvents (dom : Dom) (evs : List Event) : Dom :=
  evs.foldl applyEvent dom

/-- C3: an alert is shown iff the module pipeline fails — exactly one alert,
carrying the error's string form, when the import rejects or the
default-export call throws into the chain; no alert when both succeed. -/
theorem alert_iff_module_failure (imp : Promise DefaultBehavior) :
    alertsOf (modulePipeline imp).1 = (specModuleFailure imp).toList := by
  cases imp with
  | rejected e => rfl
  | resolved d => cases d <;> rfl

/-- C6: on a successful module load the default export is invoked exactly
once, and its return value is not awaited: a promise it returns that later
rejects does not reach the `.catch`, so no alert is shown. -/
theorem default_called_once_not_awaited (d : DefaultBehavior) (e : String) :
    defaultCallsOf (modulePipeline (Promise.resolved d)).1 = 1 ∧
    alertsOf (modulePipeline (Promise.resolved (DefaultBehavior.rejectsLater e))).1 = [] ∧
    (modulePipeline (Promise.resolved (DefaultBehavior.rejectsLater e))).2 =
      Promise.resolved () := by
  refine ⟨?_, rfl, rfl⟩
  cases d <;> rfl

/-- C5: a failure anywhere in the source-display pipeline — fetch rejection
or body-read failure — shows no alert, leaves the `#code` text unchanged, and
leaves the chain's final promise rejected (no `.catch` is attached). -/
theorem source_failure_silent (e : String) (dom : Dom) :
    alertsOf (sourcePipeline (Promise.rejected e)).1 = [] ∧
    alertsOf (sourcePipeline (Promise.resolved (Body.fails e))).1 = [] ∧
    applyEvents dom (sourcePipeline (Promise.rejected e)).1 = dom ∧
    applyEvents dom (sourcePipeline (Promise.resolved (Body.fails e))).1 = dom ∧
    (sourcePipeline (Promise.rejected e)).2.isRejected = true ∧
    (sourcePipeline (Promise.resolved (Body.fails e))).2.isRejected = true :=
  ⟨rfl, rfl, rfl, rfl, rfl, rfl⟩

/-- C7: the source-display pipeline is idempotent for a fixed fetched text —
replaying its events a second time leaves the same final `#code` text, which
equals the fetched text. -/
theorem display_idempotent (t : String) (dom : Dom) :
    applyEvents (applyEvents dom (sourcePipeline (Promise.resolved (Body.ok t))).1)
        (sourcePipeline (Promise.resolved (Body.ok t))).1 =
      applyEvents dom (sourcePipeline (Promise.resolved (Body.ok t))).1 ∧
    (applyEvents dom (sourcePipeline (Promise.resolved (Body.ok t))).1).codeText = t :=
  ⟨rfl, rfl⟩

/-- The synchronous top-level statements of the script, in source order:
the dynamic import is issued first; then
`document.querySelector('a[href="#<sel>"]').classList.add("active")` —
`querySelector` returns null when no anchor with that href exists, and the
`.classList` access on null throws a TypeError, aborting the remaining
top-level statements (the fetch and the `onhashchange` assignment). -/
structure ScriptTrace where
  importIssued : Bool
  importPath : String
  threw : Bool
  activeMarked : Bool
  fetchPath : Option String
  handlerInstalled : Bool
deriving DecidableEq, Repr

/-- Run the script's top-level statements for the given fragment against a
document holding the given anchor hrefs (such as `"#cells"`). -/
def runScript (frag : String) (anchors : List String) : ScriptTrace :=
  let ex := resolveSelector frag
  if anchors.contains ("#" ++ ex) then
    { importIssued := true
      importPath := modulePath ex
      threw := false
      activeMarked := true
      fetchPath := some (sourcePath ex)
      handlerInstalled := true }
  else
    { importIssued := true
      importPath := modulePath ex
      threw := true
      activeMarked := false
      fetchPath := none
      handlerInstalled := false }

/-- The action a hash-change navigation maps to. -/
inductive NavAction where
  | reload
deriving DecidableEq, Repr

/-- `window.onhashchange = () => { window.location.reload() }`: the handler
ignores the event entirely. -/
def hashChangeHandler : Unit → NavAction :=
  fun _ => NavAction.reload

/-- A full page reload re-executes the script from the top, so the run after
a hash change is `runScript` on the new fragment. -/
def afterReload (newFrag : String) (anchors : List String) : ScriptTrace :=
  runScript newFrag anchors

/-- C4 counterexample: with no matching anchor in the document (here the
default selector `"cells"` and an empty document), the active-link marking
statement throws, and the rest of the script — the fetch pipeline — does not
run, so the step is not free of effect on the rest of the script. -/
theorem marking_throws_counterexample :
    (runScript "cells" []).threw = true ∧
    (runScript "cells" []).fetchPath = none ∧
    (runScript "cells" []).handlerInstalled = false :=
  ⟨rfl, rfl, rfl⟩

/-- C4 (amended): when no anchor with href `#<selector>` exists, the marking
statement throws a TypeError (null dereference) rather than silently doing
nothing; the statements after it do not run (no fetch is issued, the
hash-change handler is not installed), while the dynamic import, already
issued, still proceeds. -/
theorem marking_without_anchor_throws (frag : String) (anchors : List String)
    (h : anchors.contains ("#" ++ resolveSelector frag) = false) :
    (runScript frag anchors).threw = true ∧
    (runScript frag anchors).fetchPath = none ∧
    (runScript frag anchors).handlerInstalled = false ∧
    (runScript frag anchors).importPath = modulePath (resolveSelector frag) := by
  have h2 : ("#" ++ resolveSelector frag) ∉ anchors := by simpa using h
  simp [runScript, h2]

/-- Witness for amended C4: fragment `"foo"`, document with no anchors. -/
theorem marking_without_anchor_throws_witness :
    (runScript "foo" []).threw = true ∧
    (runScript "foo" []).fetchPath = none ∧
    (runScript "foo" []).handlerInstalled = false ∧
    (runScript "foo" []).importPath = modulePath (resolveSelector "foo") :=
  marking_without_anchor_throws "foo" [] rfl

/-- C10: with no matching anchor, the marking statement throws, so the
source-display pipeline never starts — no fetch of `./sources/<sel>.rs`, no
write to the display element (no events reach the DOM) — while the dynamic
import, issued earlier in the script, was still issued. -/
theorem no_anchor_skips_source_pipeline (frag : String) (anchors : List String)
    (h : anchors.contains ("#" ++ resolveSelector frag) = false) :
    (runScript frag anchors).threw = true ∧
    (runScript frag anchors).fetchPath = none ∧
    (runScript frag anchors).activeMarked = false ∧
    (runScript frag anchors).importIssued = true := by
  have h2 : ("#" ++ resolveSelector frag) ∉ anchors := by simpa using h
  simp [runScript, h2]

/-- Witness for C10: fragment `"life"`, document whose only anchor targets a
different example. -/
theorem no_anchor_skips_source_pipeline_witness :
    (runScript "life" ["#cells"]).threw = true ∧
    (runScript "life" ["#cells"]).fetchPath = none ∧
    (runScript "life" ["#cells"]).activeMarked = false ∧
    (runScript "life" ["#cells"]).importIssued = true :=
  no_anchor_skips_source_pipeline "life" ["#cells"] (by decide)

/-- C8: every hash-change event maps unconditionally to a full reload, and
the post-reload run resolves the selector from the new fragment and re-runs
both pipelines with it: the import path is built from the new selector, and
(when the matching anchor exists, so the script runs to completion) the fetch
path is too. -/
theorem hashchange_reloads_and_reruns (u : Unit) (newFrag : String)
    (anchors : List String)
    (h : anchors.contains ("#" ++ resolveSelector newFrag) = true) :
    hashChangeHandler u = NavAction.reload ∧
    (afterReload newFrag anchors).importIssued = true ∧
    (afterReload newFrag anchors).importPath =
      modulePath (resolveSelector newFrag) ∧
    (afterReload newFrag anchors).fetchPath =
      some (sourcePath (resolveSelector newFrag)) := by
  have h2 : ("#" ++ resolveSelector newFrag) ∈ anchors := by simpa using h
  simp [afterReload, runScript, h2]

/-- Witness for C8: new fragment `"life"`, document holding the anchor
`#life`. -/
theorem hashchange_reloads_and_reruns_witness :
    hashChangeHandler () = NavAction.reload ∧
    (afterReload "life" ["#life"]).importIssued = true ∧
    (afterReload "life" ["#life"]).importPath =
      modulePath (resolveSelector "life") ∧
    (afterReload "life" ["#life"]).fetchPath =
      some (sourcePath (resolveSelector "life")) :=
  hashchange_reloads_and_reruns () "life" ["#life"] (by decide)
